import Mathlib

/-!
Verification of the session/protocol layer of the MA_Agents frontend
(`src/frontend/src/api/chatService.ts`).

The `ChatService` class is embedded shallowly:

* The wire envelope is modelled at two levels.  Every object this layer
  ever serializes is a flat JSON object whose values are all strings, so a
  frame is a `List (String × String)` of key/value pairs in literal order,
  and `jsonStringify` / `jsonParse` implement the platform
  `JSON.stringify` / `JSON.parse` on exactly that fragment of JSON
  (compact form, with full string escaping, as `JSON.stringify` emits it).
* The mutable fields of the singleton (`socket`, `initialData`, the
  pending `setTimeout` callback of `setInitialData`) become a `ChatState`
  record.  `crypto.randomUUID()` becomes a fresh-value generator threaded
  through the state (`uuidSeed`), and `new Date().toISOString()` becomes
  the printed model clock.
* Every externally triggered entry point — the public methods
  `connect` / `disconnect` / `sendMessage` / `setInitialData`, the
  transport callbacks `onopen` / `onclose` / `onerror` / `onmessage`, and
  the passage of time (which fires due `setTimeout` callbacks) — is an
  `Ev`; `step` runs one entry point and returns the updated state
  together with the list of observable `Action`s (wire sends, transport
  close requests, bus notifications, console logs) in the order the code
  performs them.  `step` is a total function: the embedded code throws no
  exception on any input.
* `notify`'s fan-out over the registered callback list
  (`callbacks.forEach(cb => cb(data))`) is modelled separately by
  `runCallbacks`, which records how many callbacks were invoked and which
  exception, if any, propagated out of the iteration.
-/

namespace ChatService

/-! ## JSON strings: the platform codec on flat string-valued objects -/

/-- Lower-case hex digit, as `JSON.stringify` prints `\u00XX` escapes. -/
def hexDig (n : Nat) : Char :=
  if n < 10 then Char.ofNat (48 + n) else Char.ofNat (87 + n)

/-- Escape one character of a JSON string exactly as `JSON.stringify`
does: quote and backslash get a backslash escape, the five named control
characters get their short escapes, any other control character becomes
`\u00XX`, and everything else is emitted literally. -/
def escChar (c : Char) : List Char :=
  if c = '"' then ['\\', '"']
  else if c = '\\' then ['\\', '\\']
  else if c = Char.ofNat 8 then ['\\', 'b']
  else if c = Char.ofNat 9 then ['\\', 't']
  else if c = Char.ofNat 10 then ['\\', 'n']
  else if c = Char.ofNat 12 then ['\\', 'f']
  else if c = Char.ofNat 13 then ['\\', 'r']
  else if c.toNat < 32 then
    ['\\', 'u', '0', '0', hexDig (c.toNat / 16), hexDig (c.toNat % 16)]
  else [c]

/-- Escape a whole JSON string body. -/
def escString : List Char → List Char
  | [] => []
  | c :: cs => escChar c ++ escString cs

/-- Serialized form of one `"key":"value"` member. -/
def pairChars (p : String × String) : List Char :=
  '"' :: (escString p.1.data ++ '"' :: ':' :: '"' :: (escString p.2.data ++ ['"']))

/-- Serialized form of a comma-separated member list. -/
def membersChars : List (String × String) → List Char
  | [] => []
  | [p] => pairChars p
  | p :: q :: ps => pairChars p ++ ',' :: membersChars (q :: ps)

/-- The platform `JSON.stringify`, restricted to the flat string-valued
objects this layer serializes (compact output, keys in literal order). -/
def jsonStringify (ps : List (String × String)) : String :=
  ⟨'{' :: (membersChars ps ++ ['}'])⟩

/-! ## Data model -/

/-- The `readyState` constants of the platform `WebSocket` handle. -/
inductive ReadyState
  | CONNECTING
  | OPEN
  | CLOSING
  | CLOSED
  deriving DecidableEq, Repr

/-- A transport handle (`WebSocket` instance).  `gen` identifies which
`new WebSocket(...)` created it, so that a frame sent on a later
connection is distinguishable from one sent on the connection that was
current when an action was scheduled. -/
structure Socket where
  readyState : ReadyState
  gen : Nat
  deriving DecidableEq, Repr

/-- The `InitialFormData` interface: the session-context fields. -/
structure InitialFormData where
  sector : String
  checkSize : String
  geographicalLocation : String
  deriving DecidableEq, Repr

/-- A parsed inbound wire envelope (the `WebSocketMessage` shape as
consumed by `onmessage`): required `type` discriminant plus the optional
fields the dispatch code reads. -/
structure WebSocketMessage where
  type : String
  message_id : Option String := none
  content : Option String := none
  sender : Option String := none
  deriving DecidableEq, Repr

/-- The `Message` record built for subscribers. -/
structure Message where
  id : String
  text : Option String
  timestamp : String
  sender : Option String
  isStreaming : Option Bool := none
  type : Option String := none
  deriving DecidableEq, Repr

/-- Payload handed to bus subscribers by `notify`. -/
inductive Payload
  | none
  | msg (m : Message)
  | chunk (id chunk : String)
  | streamEnd (id : String)
  | errContent (c : Option String)
  | errEvent
  deriving DecidableEq, Repr

/-- One observable effect of running an entry point, in program order:
a `socket.send(JSON.stringify(frame))` on socket instance `gen`, a
`socket.close()` request, a bus notification, or a console log. -/
inductive Action
  | wireSend (gen : Nat) (frame : List (String × String))
  | closeTransport (gen : Nat)
  | busNotify (event : String) (p : Payload)
  | log (s : String)
  | logError (s : String)
  deriving DecidableEq, Repr

/-- A `setTimeout` callback scheduled by `setInitialData`, with its due
time and the captured form data. -/
structure PendingTrigger where
  fireAt : Nat
  data : InitialFormData
  deriving DecidableEq, Repr

/-- The mutable fields of the `ChatService` singleton, plus the model
clock (`time`), the generation counter for `new WebSocket` (`nextGen`)
and the fresh-value source standing in for `crypto.randomUUID()`
(`uuidSeed`). -/
structure ChatState where
  socket : Option Socket
  initialData : Option InitialFormData
  pending : List PendingTrigger
  time : Nat
  nextGen : Nat
  uuidSeed : Nat
  deriving DecidableEq, Repr

/-- State of a fresh `ChatService` instance. -/
def initState : ChatState :=
  { socket := none, initialData := none, pending := [], time := 0, nextGen := 0, uuidSeed := 0 }

/-- JavaScript `x || d` on a string-or-undefined value: both `undefined`
and the empty string are falsy. -/
def jsOr (o : Option String) (d : String) : String :=
  match o with
  | Option.none => d
  | some s => if s = "" then d else s

/-- Whether `x || _` takes the right branch, i.e. `x` is falsy. -/
def strFalsy (o : Option String) : Bool :=
  match o with
  | Option.none => true
  | some s => s = ""

/-- The fresh value produced by the model's `crypto.randomUUID()`. -/
def freshUuid (n : Nat) : String :=
  "uuid-" ++ toString n

/-! ## Outbound frames (the object literals the code stringifies) -/

/-- The authentication frame sent inside `onopen`. -/
def authFrame : List (String × String) :=
  [("type", "auth"), ("token", "test")]

/-- The `init_data` frame sent by `setInitialData`. -/
def initDataFrame (d : InitialFormData) : List (String × String) :=
  [("type", "init_data"), ("sector", d.sector), ("check_size", d.checkSize),
   ("geographical_location", d.geographicalLocation)]

/-- The inner `messageObject` of a chat turn (and, with content
`"init_reasoning"`, of the delayed trigger). -/
def innerObject (content sector checkSize geo : String) : List (String × String) :=
  [("content", content), ("sector", sector), ("check_size", checkSize),
   ("geographical_location", geo)]

/-- The outer `message` frame wrapping a stringified inner object. -/
def messageFrame (inner : String) : List (String × String) :=
  [("type", "message"), ("content", inner)]

/-- The trigger frame the `setTimeout` callback of `setInitialData`
sends. -/
def triggerFrame (d : InitialFormData) : List (String × String) :=
  messageFrame (jsonStringify
    (innerObject "init_reasoning" d.sector d.checkSize d.geographicalLocation))

/-! ## Inbound dispatch (the `onmessage` switch and its handlers) -/

/-- Handler for `stream_start` frames: builds a `Message` whose id is
the frame's `message_id` or, when that is falsy, a fresh
`crypto.randomUUID()`, and notifies `stream_start`. -/
def handleStreamStart (s : ChatState) (m : WebSocketMessage) : ChatState × List Action :=
  let message : Message :=
    { id := jsOr m.message_id (freshUuid s.uuidSeed), text := m.content,
      timestamp := toString s.time, sender := m.sender, isStreaming := some true }
  let s' := if strFalsy m.message_id then { s with uuidSeed := s.uuidSeed + 1 } else s
  (s', [Action.busNotify "stream_start" (Payload.msg message)])

/-- Handler for `stream_chunk` frames: id and chunk default to the empty
string, then notify `stream_chunk`. -/
def handleStreamChunk (s : ChatState) (m : WebSocketMessage) : ChatState × List Action :=
  (s, [Action.busNotify "stream_chunk" (Payload.chunk (jsOr m.message_id "") (jsOr m.content ""))])

/-- Handler for `stream_end` frames: id defaults to the empty string,
then notify `stream_end`. -/
def handleStreamEnd (s : ChatState) (m : WebSocketMessage) : ChatState × List Action :=
  (s, [Action.busNotify "stream_end" (Payload.streamEnd (jsOr m.message_id ""))])

/-- Handler for single-shot `message` / `greeting` frames. -/
def handleMessage (s : ChatState) (m : WebSocketMessage) : ChatState × List Action :=
  let message : Message :=
    { id := jsOr m.message_id (freshUuid s.uuidSeed), text := m.content,
      timestamp := toString s.time, sender := m.sender, type := some m.type }
  let s' := if strFalsy m.message_id then { s with uuidSeed := s.uuidSeed + 1 } else s
  (s', [Action.busNotify "message_received" (Payload.msg message)])

/-- The `onmessage` dispatch over a successfully parsed frame: the
switch on `wsMessage.type`, preceded by the `Message received` log. -/
def onMessage (s : ChatState) (m : WebSocketMessage) : ChatState × List Action :=
  let dispatched : ChatState × List Action :=
    if m.type = "stream_start" then handleStreamStart s m
    else if m.type = "stream_chunk" then handleStreamChunk s m
    else if m.type = "stream_end" then handleStreamEnd s m
    else if m.type = "typing" then (s, [Action.busNotify "typing" Payload.none])
    else if m.type = "error" then (s, [Action.busNotify "error" (Payload.errContent m.content)])
    else if m.type = "system_message" then (s, [Action.log "System message"])
    else if m.type = "message" ∨ m.type = "greeting" then handleMessage s m
    else (s, [Action.log "Unhandled message type"])
  (dispatched.1, Action.log "Message received" :: dispatched.2)

/-! ## Entry points and the step function -/

/-- The `setTimeout` callback body scheduled by `setInitialData`,
evaluated against the `this.socket` current when the timer fires: it
sends the trigger only if that (possibly different) socket is open. -/
def fireTrigger (so : Option Socket) (d : InitialFormData) : List Action :=
  match so with
  | Option.none => []
  | some sock =>
    if sock.readyState = ReadyState.OPEN then [Action.wireSend sock.gen (triggerFrame d)]
    else []

/-- Run the due `setTimeout` callbacks in scheduling order. -/
def fireAll (so : Option Socket) : List PendingTrigger → List Action
  | [] => []
  | p :: ps => fireTrigger so p.data ++ fireAll so ps

/-- An externally triggered entry point of the session layer: a public
method call, a transport callback, or the passage of `n` milliseconds
(which fires the `setTimeout` callbacks that come due). -/
inductive Ev
  | connect
  | disconnect
  | sendMessage (text : String)
  | setInitialData (d : InitialFormData)
  | onopen
  | onclose
  | onerror
  | onmessage (m : WebSocketMessage)
  | elapse (n : Nat)
  deriving DecidableEq, Repr

/-- One entry point of `ChatService`, translated statement by statement
from the source; returns the new state and the observable actions in
program order. -/
def step (s : ChatState) (e : Ev) : ChatState × List Action :=
  match e with
  | Ev.connect =>
    match s.socket with
    | some sock =>
      if sock.readyState = ReadyState.OPEN then
        (s, [Action.log "WebSocket is already connected"])
      else
        ({ s with socket := some ⟨ReadyState.CONNECTING, s.nextGen⟩,
                  nextGen := s.nextGen + 1 }, [])
    | Option.none =>
      ({ s with socket := some ⟨ReadyState.CONNECTING, s.nextGen⟩,
                nextGen := s.nextGen + 1 }, [])
  | Ev.disconnect =>
    match s.socket with
    | some sock =>
      if sock.readyState = ReadyState.OPEN then
        ({ s with socket := some { sock with readyState := ReadyState.CLOSING } },
         [Action.closeTransport sock.gen])
      else (s, [])
    | Option.none => (s, [])
  | Ev.sendMessage text =>
    match s.socket with
    | some sock =>
      if sock.readyState = ReadyState.OPEN then
        let inner := innerObject text
          (jsOr (s.initialData.map InitialFormData.sector) "")
          (jsOr (s.initialData.map InitialFormData.checkSize) "")
          (jsOr (s.initialData.map InitialFormData.geographicalLocation) "")
        (s, [Action.wireSend sock.gen (messageFrame (jsonStringify inner))])
      else (s, [Action.logError "WebSocket is not connected"])
    | Option.none => (s, [Action.logError "WebSocket is not connected"])
  | Ev.setInitialData d =>
    let s1 := { s with initialData := some d }
    match s1.socket with
    | some sock =>
      if sock.readyState = ReadyState.OPEN then
        ({ s1 with pending := s1.pending ++ [⟨s1.time + 500, d⟩] },
         [Action.wireSend sock.gen (initDataFrame d)])
      else (s1, [])
    | Option.none => (s1, [])
  | Ev.onopen =>
    match s.socket with
    | some sock =>
      let sock' := { sock with readyState := ReadyState.OPEN }
      let s' := { s with socket := some sock' }
      let authActs :=
        if sock'.readyState = ReadyState.OPEN then [Action.wireSend sock'.gen authFrame]
        else []
      (s', Action.log "WebSocket connected" ::
        (authActs ++ [Action.busNotify "connected" Payload.none]))
    | Option.none => (s, [])
  | Ev.onclose =>
    match s.socket with
    | some sock =>
      ({ s with socket := some { sock with readyState := ReadyState.CLOSED } },
       [Action.log "WebSocket disconnected", Action.busNotify "disconnected" Payload.none])
    | Option.none => (s, [])
  | Ev.onerror =>
    (s, [Action.logError "WebSocket error", Action.busNotify "error" Payload.errEvent])
  | Ev.onmessage m => onMessage s m
  | Ev.elapse n =>
    let t := s.time + n
    let due := s.pending.filter fun p => p.fireAt ≤ t
    let rest := s.pending.filter fun p => ¬ p.fireAt ≤ t
    let s' := { s with time := t, pending := rest }
    (s', fireAll s.socket due)

/-- Run a list of entry points from a state, concatenating the
observable actions. -/
def run (s : ChatState) : List Ev → ChatState × List Action
  | [] => (s, [])
  | e :: es =>
    let r1 := step s e
    let r2 := run r1.1 es
    (r2.1, r1.2 ++ r2.2)

/-! ## Observation helpers -/

/-- The bus notifications among a list of actions. -/
def busEvents (as : List Action) : List (String × Payload) :=
  as.filterMap fun a =>
    match a with
    | Action.busNotify e p => some (e, p)
    | _ => none

/-- How many bus notifications for event `e` a list of actions holds. -/
def countEvent (as : List Action) (e : String) : Nat :=
  (busEvents as).countP fun x => x.1 = e

/-- The wire sends among a list of actions, with the socket generation
they went out on. -/
def wireSends (as : List Action) : List (Nat × List (String × String)) :=
  as.filterMap fun a =>
    match a with
    | Action.wireSend g f => some (g, f)
    | _ => none

/-! ## The platform `JSON.parse` on the envelope fragment -/

/-- Value of one hex digit (either case), `none` on a non-digit. -/
def hexVal (c : Char) : Option Nat :=
  if 48 ≤ c.toNat ∧ c.toNat ≤ 57 then some (c.toNat - 48)
  else if 97 ≤ c.toNat ∧ c.toNat ≤ 102 then some (c.toNat - 87)
  else if 65 ≤ c.toNat ∧ c.toNat ≤ 70 then some (c.toNat - 55)
  else none

/-- Prepend a decoded character to a string-parse result. -/
def consR (c : Char) (o : Option (List Char × List Char)) : Option (List Char × List Char) :=
  o.map fun r => (c :: r.1, r.2)

/-- Parse the body of a JSON string (the opening quote already
consumed) up to its closing quote, decoding escapes; returns the decoded
characters and the unconsumed rest.  Unescaped control characters and
malformed escapes are rejected, as `JSON.parse` rejects them. -/
def parseJString : List Char → Option (List Char × List Char)
  | [] => none
  | c :: rest =>
    if c = '"' then some ([], rest)
    else if c = '\\' then
      match rest with
      | [] => none
      | e :: rest2 =>
        if e = '"' then consR '"' (parseJString rest2)
        else if e = '\\' then consR '\\' (parseJString rest2)
        else if e = '/' then consR '/' (parseJString rest2)
        else if e = 'b' then consR (Char.ofNat 8) (parseJString rest2)
        else if e = 't' then consR (Char.ofNat 9) (parseJString rest2)
        else if e = 'n' then consR (Char.ofNat 10) (parseJString rest2)
        else if e = 'f' then consR (Char.ofNat 12) (parseJString rest2)
        else if e = 'r' then consR (Char.ofNat 13) (parseJString rest2)
        else if e = 'u' then
          match rest2 with
          | h1 :: h2 :: h3 :: h4 :: rest3 =>
            match hexVal h1, hexVal h2, hexVal h3, hexVal h4 with
            | some a, some b, some c3, some d =>
              let n := ((a * 16 + b) * 16 + c3) * 16 + d
              if n < 55296 then consR (Char.ofNat n) (parseJString rest3) else none
            | _, _, _, _ => none
          | _ => none
        else none
    else if 32 ≤ c.toNat then consR c (parseJString rest)
    else none

/-- Expect one literal character. -/
def expectChar (c : Char) : List Char → Option (List Char)
  | [] => none
  | x :: rest => if x = c then some rest else none

/-- Parse one `"key":"value"` member. -/
def parsePair (input : List Char) : Option ((String × String) × List Char) :=
  (expectChar '"' input).bind fun r0 =>
  (parseJString r0).bind fun kr =>
  (expectChar ':' kr.2).bind fun r2 =>
  (expectChar '"' r2).bind fun r3 =>
  (parseJString r3).map fun vr => ((⟨kr.1⟩, ⟨vr.1⟩), vr.2)

/-- Parse a nonempty `"key":"value"` member list up to and including the
closing brace; `fuel` bounds the number of members. -/
def parseMembers : Nat → List Char → Option (List (String × String) × List Char)
  | 0, _ => none
  | fuel + 1, input =>
    (parsePair input).bind fun pr =>
      match pr.2 with
      | ',' :: r5 => (parseMembers fuel r5).map fun r => (pr.1 :: r.1, r.2)
      | '}' :: r5 => some ([pr.1], r5)
      | _ => none

/-- Parse the character stream of a frame. -/
def jsonParseL : List Char → Option (List (String × String))
  | '{' :: rest =>
    match parseMembers (rest.length + 1) rest with
    | some (ps, []) => some ps
    | _ => none
  | _ => none

/-- The platform `JSON.parse`, restricted to the envelope fragment: a
nonempty flat object whose values are all strings.  Returns the
key/value pairs in textual order, or `none` on a malformed frame
(`JSON.parse` throwing a `SyntaxError`). -/
def jsonParse (s : String) : Option (List (String × String)) :=
  jsonParseL s.data

/-- JavaScript property access on a parsed JSON object: the last
occurrence of a duplicated key wins. -/
def getField (ps : List (String × String)) (k : String) : Option String :=
  (ps.reverse.find? fun p => p.1 = k).map Prod.snd

/-- An outbound application intent producible by this layer: the auth
handshake frame, the `init_data` context frame, a user chat turn
composed by `sendMessage` (with the ambient, possibly absent context),
or the delayed reasoning trigger. -/
inductive Intent
  | auth
  | initData (d : InitialFormData)
  | chatTurn (text : String) (ctx : Option InitialFormData)
  | trigger (d : InitialFormData)
  deriving DecidableEq, Repr

/-- The object literal the code builds for an intent (the argument of
`JSON.stringify` at each send site). -/
def intentPairs : Intent → List (String × String)
  | Intent.auth => authFrame
  | Intent.initData d => initDataFrame d
  | Intent.chatTurn text ctx =>
    messageFrame (jsonStringify (innerObject text
      (jsOr (ctx.map InitialFormData.sector) "")
      (jsOr (ctx.map InitialFormData.checkSize) "")
      (jsOr (ctx.map InitialFormData.geographicalLocation) "")))
  | Intent.trigger d => triggerFrame d

/-- Encode an intent onto the wire: `JSON.stringify` of its object
literal. -/
def encodeIntent (i : Intent) : String :=
  jsonStringify (intentPairs i)

/-- The wire discriminant of each intent. -/
def intentType : Intent → String
  | Intent.auth => "auth"
  | Intent.initData _ => "init_data"
  | Intent.chatTurn _ _ => "message"
  | Intent.trigger _ => "message"

/-! ## The event bus `notify` fan-out -/

/-- The body of `notify`: `callbacks.forEach(cb => cb(data))`, where a
callback either returns or throws.  Returns how many callbacks were
invoked and the exception, if any, that propagated out of the loop: a
throwing callback ends the iteration immediately. -/
def runCallbacks (cbs : List (Payload → Except String Unit)) (data : Payload) :
    Nat × Option String :=
  match cbs with
  | [] => (0, Option.none)
  | cb :: rest =>
    match cb data with
    | Except.error e => (1, some e)
    | Except.ok _ =>
      let r := runCallbacks rest data
      (r.1 + 1, r.2)

/-! ## Concrete fixtures and frame-count observations -/

/-- How many inbound frames with discriminant `t` a list of entry
points contains. -/
def inboundFrameCount (evs : List Ev) (t : String) : Nat :=
  evs.countP fun e =>
    match e with
    | Ev.onmessage m => m.type == t
    | _ => false

/-- A sample session context. -/
def d0 : InitialFormData :=
  ⟨"Technology", "5M", "North America"⟩

/-- Inbound trace: connect, open, then a `stream_chunk` and a
`stream_end` for identifier `k1`, which never had a `stream_start`. -/
def c1trace : List Ev :=
  [Ev.connect, Ev.onopen,
   Ev.onmessage ⟨"stream_chunk", some "k1", some "lo", none⟩,
   Ev.onmessage ⟨"stream_end", some "k1", none, none⟩]

/-- Inbound trace: two `stream_start` frames for the same identifier
`k1` on one connection. -/
def c2trace : List Ev :=
  [Ev.connect, Ev.onopen,
   Ev.onmessage ⟨"stream_start", some "k1", some "Hel", some "agent"⟩,
   Ev.onmessage ⟨"stream_start", some "k1", some "again", some "agent"⟩]

/-- Trace: set the context while open, lose the connection before the
500 ms delay elapses, reconnect, and let the timer fire. -/
def c3trace : List Ev :=
  [Ev.connect, Ev.onopen, Ev.setInitialData d0, Ev.onclose, Ev.connect, Ev.onopen,
   Ev.elapse 500]

/-- A state with an open generation-0 socket and no pending timer. -/
def s3open : ChatState :=
  { socket := some ⟨ReadyState.OPEN, 0⟩, initialData := none, pending := [], time := 0,
    nextGen := 1, uuidSeed := 0 }

/-- A state whose socket has closed while the trigger timer from
`s3open` is still pending. -/
def s3closed : ChatState :=
  { socket := some ⟨ReadyState.CLOSED, 0⟩, initialData := some d0,
    pending := [⟨500, d0⟩], time := 0, nextGen := 1, uuidSeed := 0 }

/-- A registered listener list in which the first listener throws. -/
def c5cbs : List (Payload → Except String Unit) :=
  [fun _ => Except.error "boom", fun _ => Except.ok ()]

/-- A freshly created connecting socket (the state right after
`connect()` from scratch). -/
def s6conn : ChatState :=
  { socket := some ⟨ReadyState.CONNECTING, 0⟩, initialData := none, pending := [],
    time := 0, nextGen := 1, uuidSeed := 0 }

/-- An open generation-0 socket state for the close-callback witness. -/
def s7open : ChatState :=
  { socket := some ⟨ReadyState.OPEN, 0⟩, initialData := none, pending := [], time := 0,
    nextGen := 1, uuidSeed := 0 }

/-! ## Round-trip lemmas for the wire codec -/

theorem hexVal_hexDig (n : Nat) (h : n < 16) : hexVal (hexDig n) = some n := by
  interval_cases n <;> decide

theorem hexVal_zero : hexVal '0' = some 0 := by decide

theorem parseJString_quote (X : List Char) : parseJString ('"' :: X) = some ([], X) := by
  rw [parseJString.eq_def]; simp

theorem parseJString_escQuote (X : List Char) :
    parseJString ('\\' :: '"' :: X) = consR '"' (parseJString X) := by
  rw [parseJString.eq_def]; simp

theorem parseJString_escBackslash (X : List Char) :
    parseJString ('\\' :: '\\' :: X) = consR '\\' (parseJString X) := by
  rw [parseJString.eq_def]; simp

theorem parseJString_escB (X : List Char) :
    parseJString ('\\' :: 'b' :: X) = consR (Char.ofNat 8) (parseJString X) := by
  rw [parseJString.eq_def]; simp

theorem parseJString_escT (X : List Char) :
    parseJString ('\\' :: 't' :: X) = consR (Char.ofNat 9) (parseJString X) := by
  rw [parseJString.eq_def]; simp

theorem parseJString_escN (X : List Char) :
    parseJString ('\\' :: 'n' :: X) = consR (Char.ofNat 10) (parseJString X) := by
  rw [parseJString.eq_def]; simp

theorem parseJString_escF (X : List Char) :
    parseJString ('\\' :: 'f' :: X) = consR (Char.ofNat 12) (parseJString X) := by
  rw [parseJString.eq_def]; simp

theorem parseJString_escR (X : List Char) :
    parseJString ('\\' :: 'r' :: X) = consR (Char.ofNat 13) (parseJString X) := by
  rw [parseJString.eq_def]; simp

theorem parseJString_u (a b : Nat) (ha : a < 2) (hb : b < 16) (X : List Char) :
    parseJString ('\\' :: 'u' :: '0' :: '0' :: hexDig a :: hexDig b :: X)
      = consR (Char.ofNat (a * 16 + b)) (parseJString X) := by
  have hlt : a * 16 + b < 55296 := by omega
  rw [parseJString.eq_def]
  simp [hexVal_zero, hexVal_hexDig a (by omega), hexVal_hexDig b hb, hlt]

theorem parseJString_lit (c : Char) (h1 : c ≠ '"') (h2 : c ≠ '\\') (h3 : 32 ≤ c.toNat)
    (X : List Char) : parseJString (c :: X) = consR c (parseJString X) := by
  rw [parseJString.eq_def]; simp [h1, h2, h3]

/-- Decoding a JSON string inverts escaping: the heart of the codec
round trip, for every string value including quotes, backslashes and
control characters. -/
theorem parseJString_escString (s : List Char) : ∀ rest : List Char,
    parseJString (escString s ++ '"' :: rest) = some (s, rest) := by
  induction s with
  | nil =>
    intro rest
    rw [escString, List.nil_append, parseJString_quote]
  | cons c cs ih =>
    intro rest
    rw [show escString (c :: cs) = escChar c ++ escString cs from rfl, List.append_assoc]
    by_cases h1 : c = '"'
    · subst h1
      rw [show escChar '"' = ['\\', '"'] from rfl]
      simp only [List.cons_append, List.nil_append]
      rw [parseJString_escQuote, ih]; rfl
    by_cases h2 : c = '\\'
    · subst h2
      rw [show escChar '\\' = ['\\', '\\'] from rfl]
      simp only [List.cons_append, List.nil_append]
      rw [parseJString_escBackslash, ih]; rfl
    by_cases h3 : c = Char.ofNat 8
    · subst h3
      rw [show escChar (Char.ofNat 8) = ['\\', 'b'] from rfl]
      simp only [List.cons_append, List.nil_append]
      rw [parseJString_escB, ih]; rfl
    by_cases h4 : c = Char.ofNat 9
    · subst h4
      rw [show escChar (Char.ofNat 9) = ['\\', 't'] from rfl]
      simp only [List.cons_append, List.nil_append]
      rw [parseJString_escT, ih]; rfl
    by_cases h5 : c = Char.ofNat 10
    · subst h5
      rw [show escChar (Char.ofNat 10) = ['\\', 'n'] from rfl]
      simp only [List.cons_append, List.nil_append]
      rw [parseJString_escN, ih]; rfl
    by_cases h6 : c = Char.ofNat 12
    · subst h6
      rw [show escChar (Char.ofNat 12) = ['\\', 'f'] from rfl]
      simp only [List.cons_append, List.nil_append]
      rw [parseJString_escF, ih]; rfl
    by_cases h7 : c = Char.ofNat 13
    · subst h7
      rw [show escChar (Char.ofNat 13) = ['\\', 'r'] from rfl]
      simp only [List.cons_append, List.nil_append]
      rw [parseJString_escR, ih]; rfl
    by_cases h8 : c.toNat < 32
    · rw [show escChar c
          = ['\\', 'u', '0', '0', hexDig (c.toNat / 16), hexDig (c.toNat % 16)]
        from by simp [escChar, h1, h2, h3, h4, h5, h6, h7, h8]]
      simp only [List.cons_append, List.nil_append]
      rw [parseJString_u (c.toNat / 16) (c.toNat % 16) (by omega) (by omega)]
      rw [show c.toNat / 16 * 16 + c.toNat % 16 = c.toNat from by omega]
      rw [Char.ofNat_toNat, ih]; rfl
    · rw [show escChar c = [c] from by simp [escChar, h1, h2, h3, h4, h5, h6, h7, h8]]
      simp only [List.cons_append, List.nil_append]
      rw [parseJString_lit c h1 h2 (by omega), ih]; rfl

theorem expectChar_self (c : Char) (X : List Char) : expectChar c (c :: X) = some X := by
  simp [expectChar]

theorem parsePair_pairChars (p : String × String) (X : List Char) :
    parsePair (pairChars p ++ X) = some (p, X) := by
  rw [pairChars]
  simp only [List.cons_append, List.append_assoc, List.nil_append]
  rw [parsePair, expectChar_self]
  simp only [Option.some_bind]
  rw [parseJString_escString]
  simp only [Option.some_bind]
  rw [expectChar_self]
  simp only [Option.some_bind]
  rw [expectChar_self]
  simp only [Option.some_bind]
  rw [parseJString_escString]
  simp

theorem parseMembers_membersChars : ∀ (ps : List (String × String)) (fuel : Nat)
    (rest : List Char), ps ≠ [] → ps.length ≤ fuel →
    parseMembers fuel (membersChars ps ++ '}' :: rest) = some (ps, rest) := by
  intro ps
  induction ps with
  | nil => intro fuel rest h _; exact absurd rfl h
  | cons p tail ih =>
    intro fuel rest _ hf
    cases fuel with
    | zero => simp at hf
    | succ f =>
      cases tail with
      | nil =>
        rw [membersChars, parseMembers, parsePair_pairChars]
        simp
      | cons q ps' =>
        rw [membersChars]
        simp only [List.append_assoc, List.cons_append]
        rw [parseMembers, parsePair_pairChars]
        simp only [Option.some_bind]
        rw [ih f rest (by simp) (by simp at hf ⊢; omega)]
        simp

theorem length_le_membersChars : ∀ ps : List (String × String),
    ps.length ≤ (membersChars ps).length := by
  intro ps
  induction ps with
  | nil => simp [membersChars]
  | cons p tail ih =>
    cases tail with
    | nil => simp [membersChars, pairChars]
    | cons q ps' =>
      rw [membersChars]
      simp only [List.length_append, List.length_cons]
      have h1 : 0 < (pairChars p).length := by simp [pairChars]
      simp at ih
      omega

/-- The platform codec round trip on the envelope fragment: parsing a
stringified nonempty flat string-valued object recovers exactly its
key/value pairs. -/
theorem jsonParse_jsonStringify (ps : List (String × String)) (h : ps ≠ []) :
    jsonParse (jsonStringify ps) = some ps := by
  rw [jsonStringify, jsonParse]
  rw [show (String.mk ('{' :: (membersChars ps ++ ['}']))).data
      = '{' :: (membersChars ps ++ ['}']) from rfl]
  rw [jsonParseL]
  have hlen : ps.length ≤ (membersChars ps ++ ['}']).length + 1 := by
    have := length_le_membersChars ps
    simp [List.length_append]
    omega
  rw [show (membersChars ps ++ ['}'] : List Char) = membersChars ps ++ '}' :: [] from rfl]
  rw [parseMembers_membersChars ps _ [] h (by simpa using hlen)]

end ChatService

namespace ChatService

/-! ## Shared behavioural lemmas about the step function -/

theorem fireAll_not_open (so : Option Socket)
    (h : ∀ sk, so = some sk → sk.readyState ≠ ReadyState.OPEN) :
    ∀ l : List PendingTrigger, fireAll so l = [] := by
  intro l
  induction l with
  | nil => rfl
  | cons p ps ih =>
    rw [fireAll, ih]
    cases hs : so with
    | none => simp [fireTrigger]
    | some sk => simp [fireTrigger, h sk hs]

theorem countEvent_append (as bs : List Action) (t : String) :
    countEvent (as ++ bs) t = countEvent as t + countEvent bs t := by
  simp [countEvent, busEvents, List.filterMap_append, List.countP_append]

theorem busEvents_fireAll (so : Option Socket) (l : List PendingTrigger) :
    busEvents (fireAll so l) = [] := by
  induction l with
  | nil => rfl
  | cons p ps ih =>
    rw [fireAll, busEvents, List.filterMap_append]
    cases so with
    | none => simpa [fireTrigger, busEvents] using ih
    | some sk =>
      by_cases ho : sk.readyState = ReadyState.OPEN <;>
        simpa [fireTrigger, ho, busEvents] using ih

theorem countEvent_step_stream_start (s : ChatState) (e : Ev) :
    countEvent (step s e).2 "stream_start" = inboundFrameCount [e] "stream_start" := by
  cases e with
  | connect =>
    cases hs : s.socket with
    | none => simp [step, hs, countEvent, busEvents, inboundFrameCount]
    | some sk =>
      by_cases ho : sk.readyState = ReadyState.OPEN <;>
        simp [step, hs, ho, countEvent, busEvents, inboundFrameCount]
  | disconnect =>
    cases hs : s.socket with
    | none => simp [step, hs, countEvent, busEvents, inboundFrameCount]
    | some sk =>
      by_cases ho : sk.readyState = ReadyState.OPEN <;>
        simp [step, hs, ho, countEvent, busEvents, inboundFrameCount]
  | sendMessage text =>
    cases hs : s.socket with
    | none => simp [step, hs, countEvent, busEvents, inboundFrameCount]
    | some sk =>
      by_cases ho : sk.readyState = ReadyState.OPEN <;>
        simp [step, hs, ho, countEvent, busEvents, inboundFrameCount]
  | setInitialData d =>
    cases hs : s.socket with
    | none => simp [step, hs, countEvent, busEvents, inboundFrameCount]
    | some sk =>
      by_cases ho : sk.readyState = ReadyState.OPEN <;>
        simp [step, hs, ho, countEvent, busEvents, inboundFrameCount]
  | onopen =>
    cases hs : s.socket with
    | none => simp [step, hs, countEvent, busEvents, inboundFrameCount]
    | some sk => simp [step, hs, countEvent, busEvents, inboundFrameCount]
  | onclose =>
    cases hs : s.socket with
    | none => simp [step, hs, countEvent, busEvents, inboundFrameCount]
    | some sk => simp [step, hs, countEvent, busEvents, inboundFrameCount]
  | onerror => simp [step, countEvent, busEvents, inboundFrameCount]
  | onmessage m =>
    simp only [step, onMessage]
    split_ifs with hs1 hs2 hs3 hs4 hs5 hs6 hs7 <;>
      simp_all [handleStreamStart, handleStreamChunk, handleStreamEnd, handleMessage,
        countEvent, busEvents, inboundFrameCount]
  | elapse n =>
    simp [step, countEvent, busEvents_fireAll, inboundFrameCount]

theorem countEvent_step_stream_end (s : ChatState) (e : Ev) :
    countEvent (step s e).2 "stream_end" = inboundFrameCount [e] "stream_end" := by
  cases e with
  | connect =>
    cases hs : s.socket with
    | none => simp [step, hs, countEvent, busEvents, inboundFrameCount]
    | some sk =>
      by_cases ho : sk.readyState = ReadyState.OPEN <;>
        simp [step, hs, ho, countEvent, busEvents, inboundFrameCount]
  | disconnect =>
    cases hs : s.socket with
    | none => simp [step, hs, countEvent, busEvents, inboundFrameCount]
    | some sk =>
      by_cases ho : sk.readyState = ReadyState.OPEN <;>
        simp [step, hs, ho, countEvent, busEvents, inboundFrameCount]
  | sendMessage text =>
    cases hs : s.socket with
    | none => simp [step, hs, countEvent, busEvents, inboundFrameCount]
    | some sk =>
      by_cases ho : sk.readyState = ReadyState.OPEN <;>
        simp [step, hs, ho, countEvent, busEvents, inboundFrameCount]
  | setInitialData d =>
    cases hs : s.socket with
    | none => simp [step, hs, countEvent, busEvents, inboundFrameCount]
    | some sk =>
      by_cases ho : sk.readyState = ReadyState.OPEN <;>
        simp [step, hs, ho, countEvent, busEvents, inboundFrameCount]
  | onopen =>
    cases hs : s.socket with
    | none => simp [step, hs, countEvent, busEvents, inboundFrameCount]
    | some sk => simp [step, hs, countEvent, busEvents, inboundFrameCount]
  | onclose =>
    cases hs : s.socket with
    | none => simp [step, hs, countEvent, busEvents, inboundFrameCount]
    | some sk => simp [step, hs, countEvent, busEvents, inboundFrameCount]
  | onerror => simp [step, countEvent, busEvents, inboundFrameCount]
  | onmessage m =>
    simp only [step, onMessage]
    split_ifs with hs1 hs2 hs3 hs4 hs5 hs6 hs7 <;>
      simp_all [handleStreamStart, handleStreamChunk, handleStreamEnd, handleMessage,
        countEvent, busEvents, inboundFrameCount]
  | elapse n =>
    simp [step, countEvent, busEvents_fireAll, inboundFrameCount]

theorem intentPairs_ne_nil (i : Intent) : intentPairs i ≠ [] := by
  cases i <;> simp [intentPairs, authFrame, initDataFrame, messageFrame, triggerFrame]

end ChatService

namespace ChatService

/-! ## C1: chunk or end with no prior start -/

/-- C1 counterexample: a `stream_chunk` and a `stream_end` frame whose
identifier has no prior `stream_start` in the connection's sequence each
emit one bus event, not zero as the claim states — the dispatch keeps no
per-identifier accumulator and never checks for a prior start. -/
theorem C1_counterexample :
    countEvent (run initState c1trace).2 "stream_chunk" = 1 ∧
    countEvent (run initState c1trace).2 "stream_end" = 1 := by
  constructor <;> rfl

/-- C1 (amended): processing a `stream_chunk` (resp. `stream_end`)
frame in any state — in particular with no prior `stream_start` for its
identifier — emits exactly one `stream_chunk` (resp. `stream_end`) bus
event carrying the frame's own id (empty-string default), leaves the
state unchanged, and does not crash the dispatch pipeline (the dispatch
is a total function). -/
theorem C1_chunk_end_without_start (s : ChatState) (mid c snd : Option String) :
    (step s (Ev.onmessage ⟨"stream_chunk", mid, c, snd⟩)).2
        = [Action.log "Message received",
           Action.busNotify "stream_chunk" (Payload.chunk (jsOr mid "") (jsOr c ""))] ∧
    (step s (Ev.onmessage ⟨"stream_chunk", mid, c, snd⟩)).1 = s ∧
    (step s (Ev.onmessage ⟨"stream_end", mid, c, snd⟩)).2
        = [Action.log "Message received",
           Action.busNotify "stream_end" (Payload.streamEnd (jsOr mid ""))] ∧
    (step s (Ev.onmessage ⟨"stream_end", mid, c, snd⟩)).1 = s := by
  refine ⟨?_, ?_, ?_, ?_⟩ <;> simp [step, onMessage, handleStreamChunk, handleStreamEnd]

/-! ## C2: duplicate stream-start -/

/-- C2 counterexample: a second `stream_start` for an identifier that
is already streaming is not ignored — the sequence emits two
`stream_start` events for `k1`, not exactly one as the claim states. -/
theorem C2_counterexample :
    countEvent (run initState c2trace).2 "stream_start" = 2 := by
  rfl

/-- C2 (amended): the service keeps no per-identifier state, so
duplicate starts are not suppressed: over any entry-point sequence the
number of `stream_start` bus events equals the number of inbound
`stream_start` frames, and likewise for `stream_end` — one event per
frame, rather than exactly one per identifier. -/
theorem C2_stream_start_per_frame (s : ChatState) (evs : List Ev) :
    countEvent (run s evs).2 "stream_start" = inboundFrameCount evs "stream_start" ∧
    countEvent (run s evs).2 "stream_end" = inboundFrameCount evs "stream_end" := by
  induction evs generalizing s with
  | nil => simp [run, countEvent, busEvents, inboundFrameCount]
  | cons e es ih =>
    rw [run]
    refine ⟨?_, ?_⟩
    · rw [countEvent_append, countEvent_step_stream_start, (ih _).1]
      simp [inboundFrameCount, List.countP_cons]
      omega
    · rw [countEvent_append, countEvent_step_stream_end, (ih _).2]
      simp [inboundFrameCount, List.countP_cons]
      omega

/-! ## C3: the two-step context-initialization sequence -/

/-- C3 counterexample: the connection transitions away from `Open`
(the `onclose` event) before the 500 ms delay elapses, yet a trigger
intent is still sent — and on the *next* connection (socket generation
1, not generation 0 that was current at `setInitialData` time): the
delayed step is queued for a future connection, contradicting the
claim's "zero trigger intents ... not queued for a future connection". -/
theorem C3_counterexample :
    Action.wireSend 1 (triggerFrame d0) ∈ (run initState c3trace).2 := by
  decide

/-- C3 (amended): `setInitialData` while `Open` sends exactly one
`init_data` intent immediately and schedules the trigger for 500 ms
later; nothing fires before the delay elapses; when the timer fires the
trigger is sent exactly once on whichever socket is then current and
`Open` — including a later connection's socket — and zero trigger
intents are sent if no open socket exists at firing time.  (The claim's
"not queued for a future connection" fails: the timeout stays queued
and re-checks only openness, not connection identity.) -/
theorem C3_init_sequence (s : ChatState) (sock : Socket) (d : InitialFormData)
    (h1 : s.socket = some sock) (h2 : sock.readyState = ReadyState.OPEN)
    (h3 : s.pending = []) :
    (step s (Ev.setInitialData d)).2 = [Action.wireSend sock.gen (initDataFrame d)] ∧
    (step s (Ev.setInitialData d)).1.pending = [⟨s.time + 500, d⟩] ∧
    (∀ n, n < 500 → (step (step s (Ev.setInitialData d)).1 (Ev.elapse n)).2 = []) ∧
    (∀ (s' : ChatState) (sk : Socket) (n : Nat), s'.pending = [⟨s.time + 500, d⟩] →
        s'.time = s.time → s'.socket = some sk → sk.readyState = ReadyState.OPEN →
        500 ≤ n → (step s' (Ev.elapse n)).2 = [Action.wireSend sk.gen (triggerFrame d)]) ∧
    (∀ (s' : ChatState) (n : Nat),
        (∀ sk, s'.socket = some sk → sk.readyState ≠ ReadyState.OPEN) →
        (step s' (Ev.elapse n)).2 = []) := by
  refine ⟨by simp [step, h1, h2, h3], by simp [step, h1, h2, h3], ?_, ?_, ?_⟩
  · intro n hn
    simp [step, h1, h2, h3, show ¬ (s.time + 500 ≤ s.time + n) from by omega, fireAll]
  · intro s' sk n hp ht hs hsk hn
    simp [step, hp, ht, show s.time + 500 ≤ s.time + n from by omega, fireAll, fireTrigger,
      hs, hsk]
  · intro s' n h
    simp [step, fireAll_not_open s'.socket h]

/-- C3 witness: the amended theorem evaluated on a concrete open state:
one immediate `init_data`, nothing at 499 ms, the trigger exactly at
500 ms, and no trigger when the socket has closed by firing time. -/
theorem C3_init_sequence_witness :
    (step s3open (Ev.setInitialData d0)).2 = [Action.wireSend 0 (initDataFrame d0)] ∧
    (step (step s3open (Ev.setInitialData d0)).1 (Ev.elapse 499)).2 = [] ∧
    (step (step s3open (Ev.setInitialData d0)).1 (Ev.elapse 500)).2
      = [Action.wireSend 0 (triggerFrame d0)] ∧
    (step s3closed (Ev.elapse 500)).2 = [] := by
  have h := C3_init_sequence s3open ⟨ReadyState.OPEN, 0⟩ d0 rfl rfl rfl
  refine ⟨h.1, h.2.2.1 499 (by decide), ?_, ?_⟩
  · exact h.2.2.2.1 (step s3open (Ev.setInitialData d0)).1 ⟨ReadyState.OPEN, 0⟩ 500
      h.2.1 rfl rfl rfl (by decide)
  · exact h.2.2.2.2 s3closed 500
      (fun sk hsk => by cases Option.some.inj hsk; decide)

end ChatService

namespace ChatService

/-! ## C4: sendMessage while not Open -/

/-- C4: `sendMessage` while no socket exists or the socket is not
`OPEN` sends nothing to the transport, leaves the state unchanged, and
reports the failure synchronously (the `WebSocket is not connected`
error log emitted by the guard's early return); being a total function
of the state, it throws no exception. -/
theorem C4_sendMessage_not_open (s : ChatState) (text : String)
    (h : ∀ sk, s.socket = some sk → sk.readyState ≠ ReadyState.OPEN) :
    step s (Ev.sendMessage text) = (s, [Action.logError "WebSocket is not connected"]) := by
  cases hs : s.socket with
  | none => simp [step, hs]
  | some sk => simp [step, hs, h sk hs]

/-- C4 witness: `sendMessage("hi")` before any `connect()` — no frame,
only the synchronous error report. -/
theorem C4_sendMessage_not_open_witness :
    step initState (Ev.sendMessage "hi")
      = (initState, [Action.logError "WebSocket is not connected"]) :=
  C4_sendMessage_not_open initState "hi" (fun _ h => nomatch h)

/-! ## C5: listener isolation in notify -/

/-- C5 counterexample: `notify` runs `callbacks.forEach(cb => cb(data))`
with no per-listener exception isolation, so when the first of two
registered listeners throws, only one listener is invoked — the
remaining listener is *not* invoked in the same notify call, and the
exception propagates out of `notify`. -/
theorem C5_counterexample :
    runCallbacks c5cbs Payload.none = (1, some "boom") ∧ c5cbs.length = 2 := by
  exact ⟨rfl, rfl⟩

/-- C5 (amended): a throwing listener aborts the fan-out: the listeners
registered before it all run, the thrower itself runs, no later listener
is invoked in that notify call, and the exception propagates to the
notifier. -/
theorem C5_listener_abort (bad : Payload → Except String Unit)
    (post : List (Payload → Except String Unit)) (data : Payload) (e : String) :
    ∀ pre : List (Payload → Except String Unit), (∀ cb ∈ pre, cb data = Except.ok ()) →
    bad data = Except.error e →
    runCallbacks (pre ++ bad :: post) data = (pre.length + 1, some e) := by
  intro pre
  induction pre with
  | nil => intro _ hbad; simp [runCallbacks, hbad]
  | cons cb rest ih =>
    intro hpre hbad
    have hcb : cb data = Except.ok () := hpre cb (by simp)
    have hrest : ∀ x ∈ rest, x data = Except.ok () := fun x hx => hpre x (by simp [hx])
    simp [runCallbacks, hcb, ih hrest hbad]

/-- C5 witness: one succeeding listener, then a thrower, then another
listener: exactly two listeners run and the exception escapes. -/
theorem C5_listener_abort_witness :
    runCallbacks ((fun _ => Except.ok ())
        :: (fun _ => Except.error "boom") :: [fun _ => Except.ok ()]) Payload.none
      = (2, some "boom") := by
  have h := C5_listener_abort (fun _ => Except.error "boom") [fun _ => Except.ok ()]
    Payload.none "boom" [fun _ => Except.ok ()]
    (fun cb hcb => by rw [List.mem_singleton] at hcb; subst hcb; rfl) rfl
  simpa using h

/-! ## C6: auth precedes the connected event -/

/-- C6: on every transport-open callback (a socket exists; the platform
has just moved it to `OPEN`), the entire observable output is the log,
then the auth wire send, then the `connected` bus notification — the
authentication intent goes out on the wire synchronously inside the
open callback and strictly before `connected` is notified. -/
theorem C6_auth_before_connected (s : ChatState) (sock : Socket)
    (h : s.socket = some sock) :
    (step s Ev.onopen).2
      = [Action.log "WebSocket connected", Action.wireSend sock.gen authFrame,
         Action.busNotify "connected" Payload.none] := by
  simp [step, h]

/-- C6 witness: the open callback on the freshly connecting socket. -/
theorem C6_auth_before_connected_witness :
    (step s6conn Ev.onopen).2
      = [Action.log "WebSocket connected", Action.wireSend 0 authFrame,
         Action.busNotify "connected" Payload.none] :=
  C6_auth_before_connected s6conn ⟨ReadyState.CONNECTING, 0⟩ rfl

end ChatService

namespace ChatService

/-! ## C7: the transport handle is never released -/

/-- C7 counterexample: after connect, open and the transport-close
callback, the connection is `CLOSED` — neither `Open` nor `Connecting` —
yet the transport handle is still held (the close handler only logs and
notifies `disconnected`; it never clears `this.socket`), contradicting
"None unless Open or Connecting" and "the close callback releases the
handle". -/
theorem C7_counterexample :
    (run initState [Ev.connect, Ev.onopen, Ev.onclose]).1.socket
        = some ⟨ReadyState.CLOSED, 0⟩ ∧
      (run initState [Ev.connect, Ev.onopen, Ev.onclose]).1.socket ≠ none := by
  exact ⟨rfl, by decide⟩

/-- C7 (amended): the transport-close callback marks the socket
`CLOSED` and notifies `disconnected` but retains the handle; once a
handle exists, no entry point ever releases it — the handle is `None`
only before the first `connect()`. -/
theorem C7_handle_retained (s : ChatState) (sock : Socket) (h : s.socket = some sock) :
    (step s Ev.onclose).1.socket = some { sock with readyState := ReadyState.CLOSED } ∧
    (step s Ev.onclose).2
      = [Action.log "WebSocket disconnected",
         Action.busNotify "disconnected" Payload.none] ∧
    (∀ (s' : ChatState) (e : Ev),
        (s'.socket).isSome = true → ((step s' e).1.socket).isSome = true) := by
  refine ⟨by simp [step, h], by simp [step, h], ?_⟩
  intro s' e hs
  cases e with
  | connect =>
    cases hs' : s'.socket with
    | none => simp [step, hs']
    | some sk => by_cases ho : sk.readyState = ReadyState.OPEN <;> simp [step, hs', ho]
  | disconnect =>
    cases hs' : s'.socket with
    | none => simp [hs'] at hs
    | some sk => by_cases ho : sk.readyState = ReadyState.OPEN <;> simp [step, hs', ho]
  | sendMessage text =>
    cases hs' : s'.socket with
    | none => simp [hs'] at hs
    | some sk => by_cases ho : sk.readyState = ReadyState.OPEN <;> simp [step, hs', ho]
  | setInitialData d =>
    cases hs' : s'.socket with
    | none => simp [hs'] at hs
    | some sk => by_cases ho : sk.readyState = ReadyState.OPEN <;> simp [step, hs', ho]
  | onopen =>
    cases hs' : s'.socket with
    | none => simp [hs'] at hs
    | some sk => simp [step, hs']
  | onclose =>
    cases hs' : s'.socket with
    | none => simp [hs'] at hs
    | some sk => simp [step, hs']
  | onerror => simpa [step] using hs
  | onmessage m =>
    simp only [step, onMessage]
    split_ifs <;>
      simp_all [handleStreamStart, handleStreamChunk, handleStreamEnd, handleMessage] <;>
      split_ifs <;> simp_all
  | elapse n => simpa [step] using hs

/-- C7 witness: closing the open socket keeps the handle, and a
further `disconnect` still leaves a handle present. -/
theorem C7_handle_retained_witness :
    (step s7open Ev.onclose).1.socket = some ⟨ReadyState.CLOSED, 0⟩ ∧
    (step s7open Ev.onclose).2
      = [Action.log "WebSocket disconnected",
         Action.busNotify "disconnected" Payload.none] ∧
    ((step s7open Ev.disconnect).1.socket).isSome = true := by
  have h := C7_handle_retained s7open ⟨ReadyState.OPEN, 0⟩ rfl
  exact ⟨h.1, h.2.1, h.2.2 s7open Ev.disconnect rfl⟩

/-! ## C8: disconnect only closes an OPEN socket -/

/-- C8 counterexample: with a transport handle in `CONNECTING` state
(mid-handshake), `disconnect()` does not request transport close — it
emits no action at all and leaves the socket connecting, contradicting
"for every state in which a transport handle exists ... requests
transport close". -/
theorem C8_counterexample :
    (run initState [Ev.connect, Ev.disconnect]).1.socket
        = some ⟨ReadyState.CONNECTING, 0⟩ ∧
      (run initState [Ev.connect, Ev.disconnect]).2 = [] := by
  exact ⟨rfl, rfl⟩

/-- C8 (amended): `disconnect()` requests transport close only when a
handle exists *and* its `readyState` is `OPEN` (then it issues exactly
one close request and the socket moves to `CLOSING`); in every other
state — no handle, or a handle that is connecting, closing or closed —
it is a no-op.  In both cases it is safe: a total function that never
throws. -/
theorem C8_disconnect (s : ChatState) :
    (∀ sock, s.socket = some sock → sock.readyState = ReadyState.OPEN →
      step s Ev.disconnect
        = ({ s with socket := some { sock with readyState := ReadyState.CLOSING } },
           [Action.closeTransport sock.gen])) ∧
    ((∀ sock, s.socket = some sock → sock.readyState ≠ ReadyState.OPEN) →
      step s Ev.disconnect = (s, [])) := by
  constructor
  · intro sock h1 h2
    simp [step, h1, h2]
  · intro h
    cases hs : s.socket with
    | none => simp [step, hs]
    | some sk => simp [step, hs, h sk hs]

/-- C8 witness: `disconnect` on an open socket requests close;
`disconnect` on a connecting socket does nothing. -/
theorem C8_disconnect_witness :
    step s7open Ev.disconnect
        = ({ s7open with socket := some ⟨ReadyState.CLOSING, 0⟩ },
           [Action.closeTransport 0]) ∧
      step s6conn Ev.disconnect = (s6conn, []) := by
  refine ⟨(C8_disconnect s7open).1 ⟨ReadyState.OPEN, 0⟩ rfl rfl, ?_⟩
  exact (C8_disconnect s6conn).2 (fun sk hsk => by cases Option.some.inj hsk; decide)

/-! ## C9: codec round trip -/

/-- C9: for every intent the outbound composer produces — auth,
`init_data`, a chat turn with arbitrary user text and ambient context,
and the delayed trigger — parsing the encoded wire frame recovers
exactly the tagged envelope that was serialized (every key/value pair,
in order), and that envelope carries the intent's discriminant in its
`type` field. -/
theorem C9_decode_encode (i : Intent) :
    jsonParse (encodeIntent i) = some (intentPairs i) ∧
      getField (intentPairs i) "type" = some (intentType i) := by
  refine ⟨jsonParse_jsonStringify _ (intentPairs_ne_nil i), ?_⟩
  cases i <;> rfl

/-! ## C10: defaulted message identifiers -/

/-- C10: an inbound `stream_start` frame with no `message_id` is
emitted with a freshly generated identifier (the model's
`crypto.randomUUID()` value), whereas `stream_chunk` and `stream_end`
frames with no `message_id` are emitted with the empty-string id; since
the generated identifier is never the empty string, such chunk/end
events can never correlate with the started stream. -/
theorem C10_missing_message_id (s : ChatState) (c snd : Option String) :
    (step s (Ev.onmessage ⟨"stream_start", none, c, snd⟩)).2
        = [Action.log "Message received",
           Action.busNotify "stream_start" (Payload.msg
             { id := freshUuid s.uuidSeed, text := c, timestamp := toString s.time,
               sender := snd, isStreaming := some true })] ∧
    (step s (Ev.onmessage ⟨"stream_chunk", none, c, snd⟩)).2
        = [Action.log "Message received",
           Action.busNotify "stream_chunk" (Payload.chunk "" (jsOr c ""))] ∧
    (step s (Ev.onmessage ⟨"stream_end", none, c, snd⟩)).2
        = [Action.log "Message received",
           Action.busNotify "stream_end" (Payload.streamEnd "")] ∧
    freshUuid s.uuidSeed ≠ "" := by
  refine ⟨?_, ?_, ?_, ?_⟩
  · simp [step, onMessage, handleStreamStart, jsOr]
  · simp [step, onMessage, handleStreamChunk, jsOr]
  · simp [step, onMessage, handleStreamEnd, jsOr]
  · intro hcon
    have := congrArg String.length hcon
    simp [freshUuid, String.length_append] at this
    exact absurd this.1 (by decide)

end ChatService
